import Mathlib

/-!
Shallow embedding of the core logic of the `n8n-nodes-vechain` package:
the multi-clause transaction construction and signing pipeline
(`src/nodes/Vechain/actions/transaction/transaction.operations.ts`,
`src/nodes/Vechain/transport/delegationService.ts`), the polling trigger
(`src/nodes/Vechain/Vechain.node.ts`), the unit converter
(`src/nodes/Vechain/utils/unitConverter.ts`) and the clause builder
(`src/nodes/Vechain/transport/toolchainApi.ts`).

Modelling conventions:
* JS `bigint` values are modelled as `Int` (or `Nat` where the source only
  ever sees non-negative values); JS `number` values that flow into
  `BigInt(...)` are modelled as `Rat` so that the integer-vs-fractional
  distinction of the runtime conversion is visible.
* Fallible code (thrown exceptions) is modelled with `Except String`.
* Network I/O is modelled by passing the response of each request as an
  explicit argument (an "environment"), and by recording observable side
  effects (chain submissions, writes to the persisted poll cursor) as
  explicit data in the result.
-/

namespace Vechain

/-- A transaction clause, as in `toolchainApi.ts` / `clauseBuilder.ts`:
`to` is `null` for contract deployment, `value` is a decimal (or hex)
string in wei, `data` is a `0x`-prefixed hex string. -/
structure Clause where
  «to» : Option String
  value : String
  data : String
deriving Repr, DecidableEq

/-- The transaction body assembled by `sendTransaction` in
`transaction.operations.ts`.  `reserved` is the optional
`{ features }` bitmask (`none` when the field is absent,
`some f` when `reserved = { features: f }` was set). -/
structure TxBody where
  chainTag : Nat
  blockRef : String
  expiration : Nat
  clauses : List Clause
  gasPriceCoef : Nat
  gas : Nat
  dependsOn : Option String
  nonce : String
  reserved : Option Nat
deriving Repr, DecidableEq

/-- Byte-level token list of a clause for the serialized body.  The exact
byte layout of thor-devkit RLP is irrelevant to the claims; what matters is
that the encoding is a function of the clause fields only. -/
def encodeClause (c : Clause) : List Nat :=
  (match c.to with
   | none => [0]
   | some a => 1 :: (a.toList.map Char.toNat)) ++
  [2] ++ c.value.toList.map Char.toNat ++
  [3] ++ c.data.toList.map Char.toNat

/-- Encoding of the trailing `reserved` field of a thor-devkit
`Transaction.LegacyBody`.  An absent `reserved` serializes as the empty
RLP list (one marker byte); a present `features` value serializes as a
non-empty list containing the feature bitmask.  These two encodings are
distinct byte strings. -/
def encodeReserved : Option Nat → List Nat
  | none => [192]
  | some f => [193, f]

/-- Serialization of the transaction body that `tx.signingHash()` hashes:
the fixed fields in canonical order followed by the `reserved` encoding
(`reserved` is the trailing field of a thor-devkit legacy body). -/
def encodeTxBody (b : TxBody) : List Nat :=
  [b.chainTag] ++
  b.blockRef.toList.map Char.toNat ++
  [b.expiration] ++
  b.clauses.flatMap encodeClause ++
  [b.gasPriceCoef, b.gas] ++
  (match b.dependsOn with
   | none => [0]
   | some d => 1 :: d.toList.map Char.toNat) ++
  b.nonce.toList.map Char.toNat ++
  encodeReserved b.reserved

/-- The signing digest: the hash of the serialized body.  The hash
function itself (blake2b-256 in thor-devkit) is kept abstract as a
parameter `h`. -/
def signingDigest {α : Type} (h : List Nat → α) (b : TxBody) : α :=
  h (encodeTxBody b)

/-- The transaction body built by `sendTransaction` in
`transaction.operations.ts` (lines 536-559): the fixed fields are filled
in, and then — before `new Transaction(txBody)` and `tx.signingHash()` are
ever reached — the delegation feature bit is set on the body whenever
delegation credentials with `enableDelegation` are present
(`txBody.reserved = { features: 1 }`). -/
def buildSendTxBody (chainTag : Nat) (blockRef : String) (expiration : Nat)
    (clauses : List Clause) (gasPriceCoef gas : Nat) (nonce : String)
    (delegation : Bool) : TxBody :=
  let txBody : TxBody :=
    { chainTag := chainTag
      blockRef := blockRef
      expiration := expiration
      clauses := clauses
      gasPriceCoef := gasPriceCoef
      gas := gas
      dependsOn := none
      nonce := nonce
      reserved := none }
  if delegation then { txBody with reserved := some 1 } else txBody

/-! ### Delegation service and the send pipeline (`delegationService.ts`,
`transaction.operations.ts` lines 527-606) -/

/-- Response shape of the delegation endpoint
(`DelegationResponse` in `delegationService.ts`): `error` is an optional
string field. -/
structure DelegationResponse where
  signature : String
  error : Option String
deriving Repr, DecidableEq

/-- Outcome of the HTTP POST issued by
`DelegationService.requestDelegation`: the request can succeed with a
response body, fail at the HTTP layer with a response attached
(`axios.isAxiosError(error) && error.response`, carrying an optional
`error.response.data?.error` string), or fail without any response
(timeout, connection refused), in which case the exception is re-thrown. -/
inductive DelegationHttpOutcome where
  | ok (resp : DelegationResponse)
  | httpError (dataError : Option String)
  | transportError (msg : String)
deriving Repr, DecidableEq

/-- JS truthiness of an optional string (`undefined`, `null` and `""` are
falsy). -/
def truthyStr : Option String → Bool
  | none => false
  | some s => s ≠ ""

/-- `DelegationService.requestDelegation` (`delegationService.ts` lines
74-93): a successful POST returns the response body; an axios error that
carries a response is converted into `{ signature: '', error:
error.response.data?.error || 'Delegation request failed' }`; any other
error is re-thrown. -/
def requestDelegation (outcome : DelegationHttpOutcome) :
    Except String DelegationResponse :=
  match outcome with
  | .ok resp => .ok resp
  | .httpError dataError =>
      .ok { signature := ""
            error := some (if truthyStr dataError then dataError.getD "" else "Delegation request failed") }
  | .transportError msg => .error msg

/-- Environment for one run of the `sendTransaction` helper: the outcome
the delegation endpoint would produce if called, and the transaction id
the chain node would return from `POST /transactions`. -/
structure SendEnv where
  delegationOutcome : DelegationHttpOutcome
  submitId : String
deriving Repr, DecidableEq

/-- Observable result of one run of the `sendTransaction` helper: the
value or error it produces, and how many times `client.sendTransaction`
(chain submission) was called. -/
structure SendOutcome where
  result : Except String String
  submissions : Nat
deriving Repr

/-- The `sendTransaction` helper of `transaction.operations.ts` (lines
527-606), restricted to its observable control flow.  `delegation` is
`true` when delegation credentials with `enableDelegation` and a
`delegatorUrl` are supplied.  With delegation on, the remote service is
consulted first: a thrown transport error propagates, a truthy `error`
string in the response throws `Fee delegation failed: ...`, and only
otherwise is the encoded transaction submitted (exactly one
`client.sendTransaction` call). -/
def sendTransactionRun (delegation : Bool) (env : SendEnv) : SendOutcome :=
  if delegation then
    match requestDelegation env.delegationOutcome with
    | .error msg => { result := .error msg, submissions := 0 }
    | .ok resp =>
        if truthyStr resp.error then
          { result := .error ("Fee delegation failed: " ++ resp.error.getD "")
            submissions := 0 }
        else
          { result := .ok env.submitId, submissions := 1 }
  else
    { result := .ok env.submitId, submissions := 1 }

/-! ### The polling trigger (`Vechain.node.ts`, `VechainTrigger.poll`,
lines 424-529) -/

/-- The fields of a block that the poll loop reads. -/
structure Block where
  number : Nat
  id : String
deriving Repr, DecidableEq

/-- Observable outcome of one poll tick, over an abstract event type `ε`:
`writes` is the sequence of assignments to the persisted
`workflowStaticData.lastBlockNumber` cursor during the tick, and `result`
is either the thrown error or the returned value (`none` models
`return null`, `some evs` models `return [returnData]`). -/
structure PollOutcome (ε : Type) where
  writes : List Nat
  result : Except String (Option (List ε))

/-- The per-block body of the catch-up loop (lines 457-519): for each
block number in the range, the block is fetched (`blockNum ===
bestBlock.number` reuses the already-fetched best block), a `null` block
is skipped (`if (!block) continue`), and otherwise the configured
classifier derives the block's events.  Any thrown error aborts the whole
loop. -/
def processBlocks {ε : Type} (fetch : Nat → Except String (Option Block))
    (classify : Block → Except String (List ε)) (best : Block) :
    List Nat → Except String (List ε)
  | [] => .ok []
  | n :: rest => do
      let blk ← if n = best.number then .ok (some best) else fetch n
      let evs ← match blk with
        | none => .ok []
        | some b => classify b
      let restEvs ← processBlocks fetch classify best rest
      .ok (evs ++ restEvs)

/-- `VechainTrigger.poll` (lines 424-529).  `cursor` is the persisted
`lastBlockNumber` (absent on the first invocation), `best` is the result
of `client.getBlock('best')` (`none` models a `null` response, which makes
the tick return `null` immediately).  On the first invocation the cursor
is set to `best.number` and nothing is emitted; with no new blocks nothing
is emitted and the cursor is untouched; otherwise every block in
`(cursor, best.number]` is processed in ascending order and only then —
only on success — is the cursor advanced to `best.number`, whether or not
any events were derived. -/
def poll {ε : Type} (fetch : Nat → Except String (Option Block))
    (classify : Block → Except String (List ε))
    (cursor : Option Nat) (best : Option Block) : PollOutcome ε :=
  match best with
  | none => { writes := [], result := .ok none }
  | some bestBlock =>
      match cursor with
      | none => { writes := [bestBlock.number], result := .ok none }
      | some lastBlockNumber =>
          if bestBlock.number ≤ lastBlockNumber then
            { writes := [], result := .ok none }
          else
            match processBlocks fetch classify bestBlock
                (List.range' (lastBlockNumber + 1) (bestBlock.number - lastBlockNumber)) with
            | .error e => { writes := [], result := .error e }
            | .ok returnData =>
                { writes := [bestBlock.number]
                  result := .ok (if returnData.isEmpty then none else some returnData) }

/-! ### Large-transaction classification (`Vechain.node.ts`,
`processLargeTransactions`, lines 790-836) -/

/-- One entry of the `POST /logs/transfer` response as read by the
classifier.  The fields are optional because the source guards them
(`transfer.amount || '0'`, `transfer.sender?.toLowerCase()`). -/
structure Transfer where
  sender : Option String
  recipient : Option String
  amount : Option String
deriving Repr, DecidableEq

/-- JS `toLowerCase()` on the (ASCII) strings this code compares:
per-character lower-casing.  (Defined by structural recursion over the
character list so that proofs can evaluate it.) -/
def jsToLower (s : String) : String :=
  String.mk (s.toList.map Char.toLower)

/-- JS `a || d` for an optional string `a` (falsy: absent or empty). -/
def jsOr (s : Option String) (d : String) : String :=
  match s with
  | none => d
  | some v => if v = "" then d else v

/-- JS `BigInt(n)` on a `number` `n`: succeeds exactly on (safe) integers
and throws `RangeError` on any fractional value.  The `number` is modelled
as an exact rational. -/
def jsNumberToBigInt? (n : ℚ) : Option ℤ :=
  if n.den = 1 then some n.num else none

/-- JS `BigInt(s)` on a string `s` (ECMAScript `StringToBigInt`): leading
and trailing whitespace is trimmed, the empty string is `0`, and the rest
must be an optionally-signed decimal digit string or an unsigned
`0x`/`0o`/`0b` radix literal; anything else throws `SyntaxError`.
`jsTrim` is the whitespace trimming step (written over the character list
so that proofs can evaluate it). -/
def jsTrim (s : String) : String :=
  String.mk (((s.toList.dropWhile Char.isWhitespace).reverse.dropWhile
    Char.isWhitespace).reverse)

/-- Value of one digit character in the given base (used by the radix
branches of `StringToBigInt`). -/
def digitVal? (base : Nat) (c : Char) : Option Nat :=
  let v : Option Nat :=
    if c.isDigit then some (c.toNat - 48)
    else if 'a' ≤ c ∧ c ≤ 'f' then some (c.toNat - 87)
    else if 'A' ≤ c ∧ c ≤ 'F' then some (c.toNat - 55)
    else none
  match v with
  | some d => if d < base then some d else none
  | none => none

/-- Parse a non-empty digit string in the given base. -/
def parseDigits? (base : Nat) (cs : List Char) : Option Nat :=
  if cs.isEmpty then none
  else
    cs.foldl
      (fun acc c =>
        match acc, digitVal? base c with
        | some a, some d => some (a * base + d)
        | _, _ => none)
      (some 0)

/-- See `digitVal?`: the string-to-bigint conversion used to model
`BigInt(clause.value)` and `BigInt(transfer.amount || '0')`. -/
def jsStrToBigInt? (s : String) : Option Int :=
  let t := jsTrim s
  if t = "" then some 0
  else
    match t.toList with
    | '0' :: 'x' :: rest => (parseDigits? 16 rest).map Int.ofNat
    | '0' :: 'X' :: rest => (parseDigits? 16 rest).map Int.ofNat
    | '0' :: 'o' :: rest => (parseDigits? 8 rest).map Int.ofNat
    | '0' :: 'O' :: rest => (parseDigits? 8 rest).map Int.ofNat
    | '0' :: 'b' :: rest => (parseDigits? 2 rest).map Int.ofNat
    | '0' :: 'B' :: rest => (parseDigits? 2 rest).map Int.ofNat
    | '+' :: rest => (parseDigits? 10 rest).map Int.ofNat
    | '-' :: rest => (parseDigits? 10 rest).map (fun n => -(n : Int))
    | cs => (parseDigits? 10 cs).map Int.ofNat

/-- The per-transfer loop of `processLargeTransactions` (lines 808-835):
a transfer is skipped when its amount is strictly below the scaled
threshold (`if (amount < thresholdWei) continue`), and — when a monitor
address is configured — when neither its sender nor its recipient equals
that address case-insensitively; every remaining transfer is emitted, in
order. -/
def largeTransferLoop (thresholdWei : Int) (monitorAddress : String) :
    List Transfer → Except String (List Transfer)
  | [] => .ok []
  | t :: rest => do
      let amount ← match jsStrToBigInt? (jsOr t.amount "0") with
        | some a => Except.ok a
        | none => Except.error "Cannot convert transfer amount to a BigInt"
      let restEvents ← largeTransferLoop thresholdWei monitorAddress rest
      if amount < thresholdWei then
        Except.ok restEvents
      else
        let addrLower := jsToLower monitorAddress
        if monitorAddress ≠ "" ∧
            t.sender.map jsToLower ≠ some addrLower ∧
            t.recipient.map jsToLower ≠ some addrLower then
          Except.ok restEvents
        else
          Except.ok (t :: restEvents)

/-- `processLargeTransactions` (lines 790-836): the configured threshold
(a JS `number` of whole VET) is first scaled to wei by
`BigInt(threshold) * BigInt(10 ** 18)` — this conversion throws on any
fractional threshold, before the block's transfer logs are fetched — and
the block's transfers are then filtered by `largeTransferLoop`. -/
def processLargeTransactions (threshold : ℚ) (monitorAddress : String)
    (transfers : List Transfer) : Except String (List Transfer) :=
  match jsNumberToBigInt? threshold with
  | none => .error "Cannot convert threshold to a BigInt"
  | some t => largeTransferLoop (t * 10 ^ 18) monitorAddress transfers

/-- The spec-side qualification predicate for large-transaction
classification, written from the specification text: a transfer
qualifies exactly when its amount, as an integer in base units, is at or
above the scaled threshold (the boundary is inclusive), and — when a
monitor address is configured — its sender or recipient equals that
address case-insensitively.  Compared against `largeTransferLoop` (the
source-side loop) in the C5 theorem. -/
def largeTransferSpec (thresholdWei : Int) (monitorAddress : String) (t : Transfer) : Bool :=
  (match jsStrToBigInt? (jsOr t.amount "0") with
   | some amount => thresholdWei ≤ amount
   | none => false) &&
  (monitorAddress == "" ||
   t.sender.map jsToLower == some (jsToLower monitorAddress) ||
   t.recipient.map jsToLower == some (jsToLower monitorAddress))

/-! ### Unit conversion (`utils/unitConverter.ts`, `convertUnits`,
lines 43-88) -/

/-- The `UNIT_MULTIPLIERS` table (lines 28-38). -/
def UNIT_MULTIPLIERS (unit : String) : Option Nat :=
  if unit = "wei" then some 1
  else if unit = "kwei" then some 1000
  else if unit = "mwei" then some 1000000
  else if unit = "gwei" then some 1000000000
  else if unit = "microvet" then some 1000000000000
  else if unit = "millivet" then some 1000000000000000
  else if unit = "vet" then some 1000000000000000000
  else if unit = "vtho" then some 1000000000000000000
  else if unit = "ether" then some 1000000000000000000
  else none

/-- `padStart(n, '0')` on a decimal digit string. -/
def padStartZeros (s : String) (n : Nat) : String :=
  String.mk (List.replicate (n - s.length) '0') ++ s

/-- `replace(/0+$/, '')`: drop trailing `'0'` characters. -/
def trimTrailingZeros (s : String) : String :=
  String.mk ((s.toList.reverse.dropWhile (· = '0')).reverse)

/-- The printed result of `convertUnits`: either an integral decimal
string (no decimal point) or `"<ipart>.<frac>"`.  The numeric parts are
kept as `Nat` (they are printed with the canonical decimal numeral, and
re-parsing such a numeral with `BigInt` yields the same number). -/
inductive ConvOut where
  | int (n : Nat)
  | dec (ipart : Nat) (frac : String)
deriving Repr, DecidableEq

/-- `convertUnits` (lines 43-88) on a non-negative integer input value
(the no-decimal-point branch of the source: `BigInt(value) *
fromMultiplier`).  Unknown units throw; otherwise the value is scaled to
wei, divided by the target multiplier, and a non-zero remainder is
printed as an 18-digit fraction padded then trimmed of trailing zeros. -/
def convertUnitsNat (value : Nat) (fromUnit toUnit : String) : Except String ConvOut :=
  match UNIT_MULTIPLIERS (jsToLower fromUnit) with
  | none => .error ("Unknown unit: " ++ fromUnit)
  | some fromMultiplier =>
      match UNIT_MULTIPLIERS (jsToLower toUnit) with
      | none => .error ("Unknown unit: " ++ toUnit)
      | some toMultiplier =>
          let valueInWei := value * fromMultiplier
          let result := valueInWei / toMultiplier
          let remainder := valueInWei % toMultiplier
          if remainder = 0 then .ok (.int result)
          else
            let decimalPart := remainder * 10 ^ 18 / toMultiplier
            let decimalStr := trimTrailingZeros (padStartZeros (Nat.repr decimalPart) 18)
            if decimalStr = "" then .ok (.int result)
            else .ok (.dec result decimalStr)

/-! ### Clause validation (`toolchainApi.ts`, `ClauseBuilder.validate`,
lines 611-643, and `isValidAddress`, lines 698-700) -/

/-- JS `startsWith('0x')`: the first two characters are `0x`. -/
def startsWith0x (s : String) : Bool :=
  match s.toList with
  | '0' :: 'x' :: _ => true
  | _ => false

/-- A character matched by `[a-fA-F0-9]`. -/
def isHexChar (c : Char) : Bool :=
  c.isDigit || ('a' ≤ c && c ≤ 'f') || ('A' ≤ c && c ≤ 'F')

/-- `isValidAddress` (lines 698-700): the regex `/^0x[a-fA-F0-9]{40}$/`. -/
def isValidAddress (address : String) : Bool :=
  address.toList.length = 42 &&
  (match address.toList with
   | '0' :: 'x' :: _ => true
   | _ => false) &&
  (address.toList.drop 2).all isHexChar

/-- The violations contributed by the clause at index `i` (loop body of
`validate`, lines 618-637): an invalid non-null `to` address, a `value`
rejected by `BigInt(clause.value)`, and `data` without a `0x` prefix,
each reported with the clause index. -/
def clauseErrors (i : Nat) (clause : Clause) : List String :=
  (match clause.to with
   | none => []
   | some a =>
       if isValidAddress a then []
       else [s!"Clause {i}: Invalid \x27to\x27 address"]) ++
  (match jsStrToBigInt? clause.value with
   | some _ => []
   | none => [s!"Clause {i}: Invalid \x27value\x27"]) ++
  (if startsWith0x clause.data then []
   else [s!"Clause {i}: Data must start with 0x"])

/-- Result shape of `validate`. -/
structure ValidationResult where
  valid : Bool
  errors : List String
deriving Repr, DecidableEq

/-- `ClauseBuilder.validate` (lines 611-643): one violation when the
clause list is empty, then the per-clause violations of every clause in
index order; `valid` iff no violation was collected.  All violations are
accumulated — the loop never exits early. -/
def ClauseBuilder.validate (clauses : List Clause) : ValidationResult :=
  let errors :=
    (if clauses.length = 0 then ["No clauses added"] else []) ++
    clauses.enum.flatMap (fun p => clauseErrors p.1 p.2)
  { valid := errors.length == 0, errors := errors }

/-! ### Nonce generation (`Vechain.node.ts` `ThorClient.generateNonce`,
lines 1211-1213, and the action-local `generateNonce` of
`vet.operations.ts` lines 391-393, duplicated in the vtho / contract /
vip181 operation files) -/

/-- Lower-case hex digit of a value `< 16` (as produced by JS
`toString(16)` and by `ethers.hexlify`). -/
def hexDigitChar (n : Nat) : Char :=
  if n < 10 then Char.ofNat (48 + n) else Char.ofNat (87 + n)

/-- JS `n.toString(16)` for a non-negative integer `n`: most-significant
digit first.  `fuel` bounds the recursion depth (any fuel above the digit
count gives the same result; `natToHex` passes `n + 1`). -/
def natToHexAux : Nat → Nat → List Char
  | 0, _ => []
  | fuel + 1, n =>
      if n < 16 then [hexDigitChar n]
      else natToHexAux fuel (n / 16) ++ [hexDigitChar (n % 16)]

/-- See `natToHexAux`. -/
def natToHex (n : Nat) : String :=
  String.mk (natToHexAux (n + 1) n)

/-- The action-local `generateNonce` (`vet.operations.ts` lines 391-393):
`'0x' + Math.floor(Math.random() * 0xffffffff).toString(16).padStart(8,
'0')`.  The argument `r` is the value of the `Math.floor` call — a
`Math.random`-derived integer in `[0, 0xffffffff)`. -/
def generateNonce (r : Nat) : String :=
  "0x" ++ padStartZeros (natToHex r) 8

/-- Two lower-case hex characters of one byte. -/
def byteToHex (b : Nat) : String :=
  String.singleton (hexDigitChar (b / 16 % 16)) ++ String.singleton (hexDigitChar (b % 16))

/-- Hex string of a byte array (`ethers.hexlify` without the prefix):
two hex characters per byte, concatenated. -/
def bytesToHex : List Nat → String
  | [] => ""
  | b :: rest => byteToHex b ++ bytesToHex rest

/-- `ThorClient.generateNonce` (`Vechain.node.ts` lines 1211-1213):
`'0x' + ethers.hexlify(ethers.randomBytes(8)).slice(2)`.  The argument is
the byte array produced by the CSPRNG `ethers.randomBytes(8)`. -/
def ThorClient.generateNonce (bytes : List Nat) : String :=
  "0x" ++ bytesToHex bytes

/-! ### Gas-limit selection in `executeTransactionOperation`
(`transaction.operations.ts`) -/

/-- The transaction-sending operations of
`executeTransactionOperation` that build and submit a body via the
`sendTransaction` helper. -/
inductive SendOp where
  | sendVet
  | sendVtho
  | multiClause
deriving Repr, DecidableEq

/-- `Math.ceil(totalGasUsed * 1.2)` in exact arithmetic: the ceiling of
`6 * totalGasUsed / 5`.  (The double-precision product of the source
agrees with the exact value for every gas total a node can return.) -/
def recommendedGas (totalGasUsed : Nat) : Nat :=
  (totalGasUsed * 6 + 4) / 5

/-- The gas limit placed in the transaction body by each sending
operation (lines 258-294, 296-335, 473-503).  `gasLimitParam` is the
`gasLimit` node parameter (default `0`, falsy in JS); `estimatedTotal` is
the summed `gasUsed` of `client.estimateGas` over the clause list.
`sendVet` uses `gasLimit || 21000`, `sendVtho` uses `gasLimit || 60000`;
only `multiClause` invokes gas estimation when the parameter is unset. -/
def effectiveGas (op : SendOp) (gasLimitParam : Nat) (estimatedTotal : Nat) : Nat :=
  match op with
  | .sendVet => if gasLimitParam ≠ 0 then gasLimitParam else 21000
  | .sendVtho => if gasLimitParam ≠ 0 then gasLimitParam else 60000
  | .multiClause =>
      if gasLimitParam ≠ 0 then gasLimitParam else recommendedGas estimatedTotal

/-! ## Theorems -/

/-- C1: in the signing pipeline (`sendTransaction` in
`transaction.operations.ts`), whenever fee delegation is requested the
`reserved.features` delegation bit is set on the transaction body before
the signing digest is computed, so for any two otherwise-identical
transaction bodies the signing digest with delegation enabled differs
from the signing digest with delegation disabled (for any injective
digest function over the serialized body). -/
theorem delegation_feature_bit_in_signing_digest {α : Type}
    (h : List Nat → α) (hinj : Function.Injective h)
    (chainTag : Nat) (blockRef : String) (expiration : Nat)
    (clauses : List Clause) (gasPriceCoef gas : Nat) (nonce : String) :
    (buildSendTxBody chainTag blockRef expiration clauses gasPriceCoef gas nonce true).reserved
        = some 1 ∧
    signingDigest h
        (buildSendTxBody chainTag blockRef expiration clauses gasPriceCoef gas nonce true) ≠
      signingDigest h
        (buildSendTxBody chainTag blockRef expiration clauses gasPriceCoef gas nonce false) := by
  refine ⟨rfl, fun heq => ?_⟩
  have henc := hinj heq
  have hlen := congrArg List.length henc
  simp [encodeTxBody, buildSendTxBody, encodeReserved, signingDigest] at hlen

/-- Witness for C1: the two digests differ at a concrete body, with the
identity function on encodings as the (injective) digest. -/
theorem delegation_feature_bit_in_signing_digest_witness :
    (buildSendTxBody 74 "0x00ab" 720 [⟨some "0xaa", "1", "0x"⟩] 0 21000 "0x01" true).reserved
        = some 1 ∧
    signingDigest id
        (buildSendTxBody 74 "0x00ab" 720 [⟨some "0xaa", "1", "0x"⟩] 0 21000 "0x01" true) ≠
      signingDigest id
        (buildSendTxBody 74 "0x00ab" 720 [⟨some "0xaa", "1", "0x"⟩] 0 21000 "0x01" false) :=
  delegation_feature_bit_in_signing_digest id (fun _ _ hab => hab)
    74 "0x00ab" 720 [⟨some "0xaa", "1", "0x"⟩] 0 21000 "0x01"

/-- C2: for every run of the signing pipeline with delegation enabled, if
the remote delegation service returns an error string (also when the
request fails at the HTTP layer, which `requestDelegation` converts into
an error string), the operation fails with a `Fee delegation failed`
error and performs zero chain submissions; a transport failure also
performs zero submissions; and whenever the run succeeds, exactly one
submission is made. -/
theorem delegation_error_zero_submissions (env : SendEnv) :
    (∀ resp, env.delegationOutcome = .ok resp → truthyStr resp.error = true →
      sendTransactionRun true env =
        { result := .error ("Fee delegation failed: " ++ resp.error.getD "")
          submissions := 0 }) ∧
    (∀ dataError, env.delegationOutcome = .httpError dataError →
      ∃ msg, sendTransactionRun true env =
        { result := .error ("Fee delegation failed: " ++ msg), submissions := 0 }) ∧
    (∀ msg, env.delegationOutcome = .transportError msg →
      sendTransactionRun true env = { result := .error msg, submissions := 0 }) ∧
    (∀ delegation, (sendTransactionRun delegation env).result.isOk = true →
      (sendTransactionRun delegation env).submissions = 1) := by
  obtain ⟨outcome, submitId⟩ := env
  refine ⟨?_, ?_, ?_, ?_⟩
  · rintro resp rfl htr
    simp [sendTransactionRun, requestDelegation, htr]
  · rintro dataError rfl
    cases dataError with
    | none =>
        exact ⟨"Delegation request failed",
          by simp [sendTransactionRun, requestDelegation, truthyStr]⟩
    | some s =>
        by_cases hs : s = ""
        · subst hs
          exact ⟨"Delegation request failed",
            by simp [sendTransactionRun, requestDelegation, truthyStr]⟩
        · exact ⟨s, by simp [sendTransactionRun, requestDelegation, truthyStr, hs]⟩
  · rintro msg rfl
    simp [sendTransactionRun, requestDelegation]
  · intro delegation hok
    cases delegation with
    | false => simp [sendTransactionRun]
    | true =>
        cases outcome with
        | transportError msg =>
            simp [sendTransactionRun, requestDelegation, Except.isOk, Except.toBool] at hok
        | ok resp =>
            by_cases ht : truthyStr resp.error = true
            · simp [sendTransactionRun, requestDelegation, ht, Except.isOk, Except.toBool] at hok
            · simp [sendTransactionRun, requestDelegation, ht]
        | httpError dataError =>
            cases dataError with
            | none =>
                simp [sendTransactionRun, requestDelegation, truthyStr,
                  Except.isOk, Except.toBool] at hok
            | some s =>
                by_cases hs : s = "" <;>
                  simp [sendTransactionRun, requestDelegation, truthyStr, hs,
                    Except.isOk, Except.toBool] at hok

/-- Witness for C2: with a concrete environment whose delegation service
answers with the error string `"boom"`, the run fails with the
delegation-failed error and makes zero submissions. -/
theorem delegation_error_zero_submissions_witness :
    sendTransactionRun true ⟨.ok ⟨"", some "boom"⟩, "0xid"⟩ =
      { result := .error "Fee delegation failed: boom", submissions := 0 } :=
  (delegation_error_zero_submissions ⟨.ok ⟨"", some "boom"⟩, "0xid"⟩).1
    ⟨"", some "boom"⟩ rfl (by decide)

/-- C4: on the trigger's first poll invocation (no persisted cursor) the
poll emits no events (`return null`) and writes the persisted cursor to
the current best block's number; on any invocation where the best block
number is at most the cursor, it emits no events and performs no cursor
write. -/
theorem poll_first_run_and_idle {ε : Type}
    (fetch : Nat → Except String (Option Block))
    (classify : Block → Except String (List ε))
    (bestBlock : Block) (lastBlockNumber : Nat)
    (hle : bestBlock.number ≤ lastBlockNumber) :
    poll fetch classify none (some bestBlock) =
      { writes := [bestBlock.number], result := .ok none } ∧
    poll fetch classify (some lastBlockNumber) (some bestBlock) =
      { writes := [], result := .ok none } := by
  constructor
  · rfl
  · simp [poll, hle]

/-- Witness for C4: a concrete first tick and a concrete idle tick. -/
theorem poll_first_run_and_idle_witness :
    poll (ε := Nat) (fun _ => .ok none) (fun _ => .ok []) none (some ⟨5, "0xb"⟩) =
      { writes := [5], result := .ok none } ∧
    poll (ε := Nat) (fun _ => .ok none) (fun _ => .ok []) (some 5) (some ⟨5, "0xb"⟩) =
      { writes := [], result := .ok none } :=
  poll_first_run_and_idle (fun _ => .ok none) (fun _ => .ok []) ⟨5, "0xb"⟩ 5 (by decide)

/-- C3: on every poll tick that enters catch-up
(`bestBlock.number > lastBlockNumber`), the persisted cursor is written
exactly once, to `bestBlock.number`, and only when the whole range
`(lastBlockNumber, bestBlock.number]` was processed without an error —
also when zero events were derived; if any per-block fetch or
classification throws, no cursor write happens (the cursor keeps its old
value) and the error propagates. -/
theorem catchup_advances_cursor_once_after_full_range {ε : Type}
    (fetch : Nat → Except String (Option Block))
    (classify : Block → Except String (List ε))
    (lastBlockNumber : Nat) (bestBlock : Block)
    (hgt : lastBlockNumber < bestBlock.number) :
    (∀ returnData,
      processBlocks fetch classify bestBlock
          (List.range' (lastBlockNumber + 1) (bestBlock.number - lastBlockNumber)) =
        .ok returnData →
      poll fetch classify (some lastBlockNumber) (some bestBlock) =
        { writes := [bestBlock.number]
          result := .ok (if returnData.isEmpty then none else some returnData) }) ∧
    (∀ e,
      processBlocks fetch classify bestBlock
          (List.range' (lastBlockNumber + 1) (bestBlock.number - lastBlockNumber)) =
        .error e →
      poll fetch classify (some lastBlockNumber) (some bestBlock) =
        { writes := [], result := .error e }) := by
  constructor <;> intro x hx <;> simp [poll, Nat.not_le.mpr hgt, hx]

/-- Witness for C3: a concrete one-block catch-up range that derives zero
events still advances the cursor (one write, to the best number). -/
theorem catchup_advances_cursor_once_after_full_range_witness :
    poll (ε := Nat) (fun _ => .ok none) (fun _ => .ok []) (some 0) (some ⟨1, "0xb"⟩) =
      { writes := [1], result := .ok none } := by
  have h :=
    (catchup_advances_cursor_once_after_full_range (ε := Nat)
      (fun _ => .ok none) (fun _ => .ok []) 0 ⟨1, "0xb"⟩ (by decide)).1 [] rfl
  simpa using h

/-- `Except.bind` on a success, for rewriting the do-notation of
`processBlocks`. -/
theorem exceptOkBind {ε α β : Type} (a : α) (f : α → Except ε β) :
    (Except.ok a >>= f) = f a := rfl

/-- `Except.bind` on a failure. -/
theorem exceptErrorBind {ε α β : Type} (e : ε) (f : α → Except ε β) :
    ((Except.error e : Except ε α) >>= f) = Except.error e := rfl

/-- Helper for C10: if the classifier fails on every block, any catch-up
range containing the best block's own number (which is always fetched
successfully, since the best block object is reused for it) makes
`processBlocks` fail. -/
theorem processBlocks_error_of_classify_error {ε : Type}
    (fetch : Nat → Except String (Option Block))
    (classify : Block → Except String (List ε)) (bestBlock : Block) (e0 : String)
    (hcl : ∀ b, classify b = .error e0) :
    ∀ l : List Nat, bestBlock.number ∈ l →
      ∃ e, processBlocks fetch classify bestBlock l = .error e := by
  intro l hmem
  induction l with
  | nil => simp at hmem
  | cons n rest ih =>
      by_cases hn : n = bestBlock.number
      · subst hn
        exact ⟨e0, by simp [processBlocks, hcl, exceptOkBind, exceptErrorBind]⟩
      · have hmem2 : bestBlock.number ∈ rest := by
          rcases List.mem_cons.mp hmem with h | h
          · exact absurd h.symm hn
          · exact h
        obtain ⟨e, he⟩ := ih hmem2
        cases hf : fetch n with
        | error ef =>
            exact ⟨ef, by simp [processBlocks, hn, hf, exceptOkBind, exceptErrorBind]⟩
        | ok ob =>
            cases ob with
            | none =>
                exact ⟨e, by
                  simp [processBlocks, hn, hf, he, exceptOkBind, exceptErrorBind]⟩
            | some b =>
                exact ⟨e0, by
                  simp [processBlocks, hn, hf, hcl, exceptOkBind, exceptErrorBind]⟩

/-- C10: on every large-transaction poll tick whose configured threshold
is a non-integer number, the scaling `BigInt(threshold) * BigInt(10 **
18)` throws (for any list of transfers — they are never inspected), so a
catch-up tick ends in an error that emits no events and performs no
cursor write; the fractional threshold is rejected, not truncated or
rounded. -/
theorem fractional_threshold_aborts_tick
    (threshold : ℚ) (hfrac : threshold.den ≠ 1) (monitorAddress : String)
    (transfersOf : Block → List Transfer)
    (fetch : Nat → Except String (Option Block))
    (lastBlockNumber : Nat) (bestBlock : Block)
    (hgt : lastBlockNumber < bestBlock.number) :
    (∀ transfers, processLargeTransactions threshold monitorAddress transfers =
      .error "Cannot convert threshold to a BigInt") ∧
    ∃ e,
      poll fetch
          (fun blk => processLargeTransactions threshold monitorAddress (transfersOf blk))
          (some lastBlockNumber) (some bestBlock) =
        { writes := [], result := .error e } := by
  have hcl : ∀ transfers, processLargeTransactions threshold monitorAddress transfers =
      .error "Cannot convert threshold to a BigInt" := by
    intro transfers
    simp [processLargeTransactions, jsNumberToBigInt?, hfrac]
  refine ⟨hcl, ?_⟩
  have hmem : bestBlock.number ∈
      List.range' (lastBlockNumber + 1) (bestBlock.number - lastBlockNumber) := by
    rw [List.mem_range'_1]
    omega
  obtain ⟨e, he⟩ := processBlocks_error_of_classify_error fetch
    (fun blk => processLargeTransactions threshold monitorAddress (transfersOf blk))
    bestBlock _ (fun b => hcl (transfersOf b)) _ hmem
  exact ⟨e, by simp [poll, Nat.not_le.mpr hgt, he]⟩

/-- Witness for C10: a concrete fractional threshold (1.5 VET) aborts a
concrete catch-up tick with no cursor write. -/
theorem fractional_threshold_aborts_tick_witness :
    processLargeTransactions (mkRat 3 2) "" [] =
      .error "Cannot convert threshold to a BigInt" ∧
    ∃ e,
      poll (fun _ => Except.ok none)
          (fun blk =>
            processLargeTransactions (mkRat 3 2) "" ((fun _ => []) blk))
          (some 0) (some ⟨1, "0xb"⟩) =
        { writes := [], result := .error e } := by
  obtain ⟨h1, hex⟩ := fractional_threshold_aborts_tick (mkRat 3 2) (by decide) ""
    (fun _ => []) (fun _ => Except.ok none) 0 ⟨1, "0xb"⟩ (by decide)
  exact ⟨h1 [], hex⟩

/-- Helper for C5: the spec predicate holds exactly when neither of the
loop's two `continue` conditions fires. -/
theorem largeTransferSpec_true_iff (thresholdWei : Int) (monitorAddress : String)
    (t : Transfer) (amount : Int)
    (ha : jsStrToBigInt? (jsOr t.amount "0") = some amount) :
    largeTransferSpec thresholdWei monitorAddress t = true ↔
      (¬ amount < thresholdWei ∧
        ¬(monitorAddress ≠ "" ∧
          t.sender.map jsToLower ≠ some (jsToLower monitorAddress) ∧
          t.recipient.map jsToLower ≠ some (jsToLower monitorAddress))) := by
  simp only [largeTransferSpec, ha, Bool.and_eq_true, Bool.or_eq_true,
    beq_iff_eq, decide_eq_true_eq, not_lt]
  tauto

/-- Helper for C5: one unfolding step of the loop when the head amount
parses and the tail has already been processed. -/
theorem largeTransferLoop_cons (thresholdWei : Int) (monitorAddress : String)
    (t : Transfer) (rest : List Transfer) (amount : Int)
    (ha : jsStrToBigInt? (jsOr t.amount "0") = some amount)
    (restEvents : List Transfer)
    (hrest : largeTransferLoop thresholdWei monitorAddress rest = .ok restEvents) :
    largeTransferLoop thresholdWei monitorAddress (t :: rest) =
      (if amount < thresholdWei then .ok restEvents
       else if monitorAddress ≠ "" ∧
            t.sender.map jsToLower ≠ some (jsToLower monitorAddress) ∧
            t.recipient.map jsToLower ≠ some (jsToLower monitorAddress) then
         .ok restEvents
       else .ok (t :: restEvents)) := by
  simp only [largeTransferLoop, ha, hrest, exceptOkBind]

/-- Helper for C5: on transfers whose amounts all parse, the source loop
returns exactly the sublist selected by the spec predicate, in order. -/
theorem largeTransferLoop_eq_filter (thresholdWei : Int) (monitorAddress : String) :
    ∀ transfers : List Transfer,
      (∀ t ∈ transfers, (jsStrToBigInt? (jsOr t.amount "0")).isSome = true) →
      largeTransferLoop thresholdWei monitorAddress transfers =
        .ok (transfers.filter (largeTransferSpec thresholdWei monitorAddress)) := by
  intro transfers hparse
  induction transfers with
  | nil => rfl
  | cons t rest ih =>
      have ht := hparse t (List.mem_cons_self t rest)
      obtain ⟨amount, ha⟩ := Option.isSome_iff_exists.mp ht
      have hrest := ih (fun x hx => hparse x (List.mem_cons_of_mem t hx))
      rw [largeTransferLoop_cons thresholdWei monitorAddress t rest amount ha _ hrest]
      by_cases hlt : amount < thresholdWei
      · have hspec : largeTransferSpec thresholdWei monitorAddress t = false := by
          rw [Bool.eq_false_iff]
          intro hs
          exact ((largeTransferSpec_true_iff _ _ _ _ ha).mp hs).1 hlt
        rw [if_pos hlt, List.filter_cons, hspec]
        simp
      · by_cases hskip : monitorAddress ≠ "" ∧
            t.sender.map jsToLower ≠ some (jsToLower monitorAddress) ∧
            t.recipient.map jsToLower ≠ some (jsToLower monitorAddress)
        · have hspec : largeTransferSpec thresholdWei monitorAddress t = false := by
            rw [Bool.eq_false_iff]
            intro hs
            exact ((largeTransferSpec_true_iff _ _ _ _ ha).mp hs).2 hskip
          rw [if_neg hlt, if_pos hskip, List.filter_cons, hspec]
          simp
        · have hspec : largeTransferSpec thresholdWei monitorAddress t = true :=
            (largeTransferSpec_true_iff _ _ _ _ ha).mpr ⟨hlt, hskip⟩
          rw [if_neg hlt, if_neg hskip, List.filter_cons, hspec]
          simp

/-- C5: large-transaction classification is boundary-inclusive in exact
integer base units: on any block's transfer list (whose amounts parse),
the emitted events are exactly the transfers whose amount is `≥ threshold
· 10^18`, restricted — when a monitor address is configured — to
transfers whose sender or recipient equals it case-insensitively.  In
particular a transfer of exactly the scaled threshold qualifies and one
base unit below does not. -/
theorem large_transaction_threshold_inclusive
    (threshold : ℚ) (tInt : ℤ) (hthr : jsNumberToBigInt? threshold = some tInt)
    (monitorAddress : String) (transfers : List Transfer)
    (hparse : ∀ t ∈ transfers, (jsStrToBigInt? (jsOr t.amount "0")).isSome = true) :
    processLargeTransactions threshold monitorAddress transfers =
      .ok (transfers.filter (largeTransferSpec (tInt * 10 ^ 18) monitorAddress)) ∧
    ∀ t, t ∈ transfers.filter (largeTransferSpec (tInt * 10 ^ 18) monitorAddress) ↔
      t ∈ transfers ∧ largeTransferSpec (tInt * 10 ^ 18) monitorAddress t = true := by
  refine ⟨?_, fun t => List.mem_filter⟩
  have hloop := largeTransferLoop_eq_filter (tInt * 10 ^ 18) monitorAddress transfers hparse
  simp only [processLargeTransactions, hthr, hloop]

/-- Witness for C5: with threshold 1 VET and monitor address `0xab`, a
matching transfer of exactly `10^18` wei qualifies, one of `10^18 - 1`
wei does not, and a large transfer not touching the monitor address does
not. -/
theorem large_transaction_threshold_inclusive_witness :
    processLargeTransactions 1 "0xab"
        [⟨some "0xAB", none, some "1000000000000000000"⟩,
         ⟨some "0xab", none, some "999999999999999999"⟩,
         ⟨none, some "0xCD", some "5000000000000000000"⟩] =
      .ok [⟨some "0xAB", none, some "1000000000000000000"⟩] := by
  have h := (large_transaction_threshold_inclusive 1 1 (by decide) "0xab"
    [⟨some "0xAB", none, some "1000000000000000000"⟩,
     ⟨some "0xab", none, some "999999999999999999"⟩,
     ⟨none, some "0xCD", some "5000000000000000000"⟩] (by decide)).1
  rw [h]
  congr 1

/-- C6: for every non-negative integer `n` in the 18-decimal `vet` unit,
converting it to `wei` and back to `vet` with `convertUnits` returns
exactly `n`: the forward conversion yields the integer `n * 10^18` and
the backward conversion yields the integer `n`, both printed without a
decimal point. -/
theorem convertUnits_vet_wei_roundtrip (n : Nat) :
    convertUnitsNat n "vet" "wei" = .ok (.int (n * 10 ^ 18)) ∧
    convertUnitsNat (n * 10 ^ 18) "wei" "vet" = .ok (.int n) := by
  have hvet : UNIT_MULTIPLIERS (jsToLower "vet") = some 1000000000000000000 := by decide
  have hwei : UNIT_MULTIPLIERS (jsToLower "wei") = some 1 := by decide
  constructor
  · simp only [convertUnitsNat, hvet, hwei, Nat.mod_one, Nat.div_one]
    norm_num
  · simp only [convertUnitsNat, hvet, hwei, Nat.mul_one]
    norm_num [Nat.mul_mod_left, Nat.mul_div_cancel]

/-- C7 counterexample: `validate` does not check that a clause `value` is
a *non-negative* integer — `BigInt(clause.value)` accepts a signed
integer string, so a clause with `value = "-1"` (with a null `to` and
`0x` data) passes validation with no violation, contradicting the claim
that every `value` must be parseable as a non-negative integer. -/
theorem validate_accepts_negative_value :
    (ClauseBuilder.validate [{ «to» := none, value := "-1", data := "0x" }]).valid = true ∧
    (ClauseBuilder.validate [{ «to» := none, value := "-1", data := "0x" }]).errors = [] ∧
    jsStrToBigInt? "-1" = some (-1) := by decide

/-- Helper for C7: the violations of one clause are empty exactly when
its three checks pass (`to` valid when non-null, `value` accepted by
`BigInt`, `data` `0x`-prefixed). -/
theorem clauseErrors_eq_nil_iff (i : Nat) (c : Clause) :
    clauseErrors i c = [] ↔
      ((∀ a, c.to = some a → isValidAddress a = true) ∧
        (jsStrToBigInt? c.value).isSome = true ∧
        startsWith0x c.data = true) := by
  rcases hto : c.to with _ | a
  · cases hval : jsStrToBigInt? c.value <;>
      by_cases hd : startsWith0x c.data = true <;>
        simp [clauseErrors, hto, hval, hd]
  · by_cases hva : isValidAddress a = true
    · cases hval : jsStrToBigInt? c.value <;>
        by_cases hd : startsWith0x c.data = true <;>
          simp [clauseErrors, hto, hval, hd, hva]
    · cases hval : jsStrToBigInt? c.value <;>
        by_cases hd : startsWith0x c.data = true <;>
          simp [clauseErrors, hto, hval, hd, hva]

/-- C7 amended: `ClauseBuilder.validate` reports exactly one violation on
an empty clause list; it is valid exactly when the list is non-empty and
every indexed clause has a well-formed non-null `to`, a `value` accepted
by `BigInt` (signed integers included — this is where the original claim
fails), and `0x`-prefixed `data`; and every clause with an invalid
address contributes a violation naming that clause's index (violations
are aggregated, never fail-fast). -/
theorem validate_amended_characterization (clauses : List Clause) :
    (ClauseBuilder.validate ([] : List Clause)).errors = ["No clauses added"] ∧
    ((ClauseBuilder.validate clauses).valid = true ↔
      clauses ≠ [] ∧
      ∀ p ∈ clauses.enum,
        (∀ a, p.2.to = some a → isValidAddress a = true) ∧
        (jsStrToBigInt? p.2.value).isSome = true ∧
        startsWith0x p.2.data = true) ∧
    (∀ p ∈ clauses.enum, ∀ a, p.2.to = some a → isValidAddress a = false →
      s!"Clause {p.1}: Invalid \x27to\x27 address" ∈
        (ClauseBuilder.validate clauses).errors) := by
  refine ⟨rfl, ?_, ?_⟩
  · cases clauses with
    | nil => simp [ClauseBuilder.validate]
    | cons c rest =>
        simp only [ClauseBuilder.validate, List.length_cons, Nat.succ_ne_zero,
          if_neg, List.nil_append, Nat.beq_eq_true_eq, List.length_eq_zero,
          List.flatMap_eq_nil_iff, ne_eq, reduceCtorEq, not_false_eq_true,
          true_and]
        constructor
        · intro hall p hp
          exact (clauseErrors_eq_nil_iff p.1 p.2).mp (hall p hp)
        · intro hall p hp
          exact (clauseErrors_eq_nil_iff p.1 p.2).mpr (hall p hp)
  · intro p hp a hto hva
    simp only [ClauseBuilder.validate]
    apply List.mem_append.mpr
    right
    apply List.mem_flatMap.mpr
    refine ⟨p, hp, ?_⟩
    simp [clauseErrors, hto, hva]

/-- Witness for C7 (amended): a clause with the malformed address `0xZZ`
produces a violation that names clause index 0. -/
theorem validate_amended_characterization_witness :
    s!"Clause {(0 : Nat)}: Invalid \x27to\x27 address" ∈
      (ClauseBuilder.validate [{ «to» := some "0xZZ", value := "5", data := "0x" }]).errors :=
  (validate_amended_characterization
      [{ «to» := some "0xZZ", value := "5", data := "0x" }]).2.2
    (0, { «to» := some "0xZZ", value := "5", data := "0x" }) (by decide)
    "0xZZ" rfl (by decide)

/-- C8 counterexample: the action-local `generateNonce` of
`vet.operations.ts` (also used by the vtho / contract / vip181
operations) produces `'0x'` plus 8 hex characters — a 4-byte value — and
is fed from `Math.random`, while an 8-byte nonce (as produced by
`ThorClient.generateNonce` from `ethers.randomBytes(8)`) has 16 hex
characters; so the claim that every transaction-constructing operation
uses a freshly generated 8-byte CSPRNG nonce fails on these operations. -/
theorem action_nonce_not_8_bytes :
    generateNonce 3735928559 = "0xdeadbeef" ∧
    (generateNonce 3735928559).length = 10 ∧
    ThorClient.generateNonce [222, 173, 190, 239, 0, 1, 2, 3] = "0xdeadbeef00010203" ∧
    (ThorClient.generateNonce [222, 173, 190, 239, 0, 1, 2, 3]).length = 18 ∧
    (10 : Nat) ≠ 18 := by decide

/-- Helper for C8: `toString(16)` of a value below `16^k` has at most `k`
hex digits. -/
theorem natToHexAux_length_le :
    ∀ (fuel n k : Nat), 0 < k → n < 16 ^ k → (natToHexAux fuel n).length ≤ k := by
  intro fuel
  induction fuel with
  | zero => intro n k _ _; simp [natToHexAux]
  | succ fuel ih =>
      intro n k hk hlt
      by_cases h16 : n < 16
      · simp [natToHexAux, h16]
        omega
      · have hk2 : 2 ≤ k := by
          by_contra hcon
          have hk1 : k = 1 := by omega
          subst hk1
          simp at hlt
          omega
      -- the quotient drops below the next-smaller power
        have hdiv : n / 16 < 16 ^ (k - 1) := by
          apply Nat.div_lt_of_lt_mul
          have hpow : 16 ^ k = 16 * 16 ^ (k - 1) := by
            conv_lhs => rw [show k = (k - 1) + 1 by omega]
            rw [Nat.pow_succ]
            ring
          omega
        have hrec := ih (n / 16) (k - 1) (by omega) hdiv
        simp [natToHexAux, h16]
        omega

/-- Helper for C8: two hex characters per byte. -/
theorem bytesToHex_length (bytes : List Nat) :
    (bytesToHex bytes).length = 2 * bytes.length := by
  induction bytes with
  | nil => rfl
  | cons b rest ih =>
      simp only [bytesToHex, String.length_append, ih, byteToHex, List.length_cons]
      simp [String.length]
      omega

/-- C8 amended: `ThorClient.generateNonce` (used by the
`transaction.operations.ts` pipeline) returns an 8-byte nonce (`0x` plus
16 hex characters) drawn from the CSPRNG `ethers.randomBytes`; the
action-local `generateNonce` of the vet / vtho / contract / vip181
operations instead returns a 4-byte value (`0x` plus 8 hex characters)
derived from the non-cryptographic `Math.random`. -/
theorem nonce_widths_amended :
    (∀ r : Nat, r < 2 ^ 32 → (generateNonce r).length = 10) ∧
    (∀ bytes : List Nat, bytes.length = 8 →
      (ThorClient.generateNonce bytes).length = 18) := by
  constructor
  · intro r hr
    have hlen : (natToHexAux (r + 1) r).length ≤ 8 := by
      apply natToHexAux_length_le (r + 1) r 8 (by norm_num)
      have : (2 : Nat) ^ 32 = 16 ^ 8 := by norm_num
      omega
    simp only [generateNonce, padStartZeros, natToHex, String.length_append]
    simp only [String.length] at hlen ⊢
    simp [List.length_append]
    omega
  · intro bytes hb
    simp only [ThorClient.generateNonce, String.length_append, bytesToHex_length, hb]
    rfl

/-- Witness for C8 (amended): concrete widths at `r = 0` and an all-zero
byte array. -/
theorem nonce_widths_amended_witness :
    (generateNonce 0).length = 10 ∧
    (ThorClient.generateNonce [0, 0, 0, 0, 0, 0, 0, 0]).length = 18 :=
  ⟨nonce_widths_amended.1 0 (by norm_num),
   nonce_widths_amended.2 [0, 0, 0, 0, 0, 0, 0, 0] rfl⟩

/-- C9 counterexample: the claim says every transaction-sending operation
with no caller-supplied gas limit estimates gas and applies the 20%
margin; but `sendVet` (lines 258-294) uses the fixed fallback
`gasLimit || 21000` — at an estimated total of 100 gas the margin rule
would give 120, while the body is built with 21000. -/
theorem sendVet_default_gas_not_estimated :
    effectiveGas .sendVet 0 100 = 21000 ∧
    recommendedGas 100 = 120 ∧
    effectiveGas .sendVet 0 100 ≠ recommendedGas 100 := by decide

/-- C9 amended: only the `multiClause` operation obtains its gas limit
from gas estimation with a 20% safety margin (`Math.ceil(total * 1.2)`,
i.e. the exact ceiling of `6·total/5`); `sendVet` and `sendVtho` fall
back to the fixed defaults 21000 and 60000; any non-zero caller-supplied
gas limit is used as-is by all three. -/
theorem gas_selection_amended (estimatedTotal : Nat) :
    effectiveGas .multiClause 0 estimatedTotal = recommendedGas estimatedTotal ∧
    (6 * estimatedTotal ≤ 5 * recommendedGas estimatedTotal ∧
      5 * recommendedGas estimatedTotal < 6 * estimatedTotal + 5) ∧
    effectiveGas .sendVet 0 estimatedTotal = 21000 ∧
    effectiveGas .sendVtho 0 estimatedTotal = 60000 ∧
    (∀ gasLimitParam, gasLimitParam ≠ 0 → ∀ op,
      effectiveGas op gasLimitParam estimatedTotal = gasLimitParam) := by
  refine ⟨rfl, ?_, rfl, rfl, ?_⟩
  · unfold recommendedGas
    omega
  · intro gasLimitParam hg op
    cases op <;> simp [effectiveGas, hg]

/-- Witness for C9 (amended): concrete evaluations, including a non-zero
caller-supplied limit. -/
theorem gas_selection_amended_witness :
    effectiveGas .multiClause 0 100 = 120 ∧
    effectiveGas .sendVet 0 100 = 21000 ∧
    effectiveGas .sendVtho 7777 100 = 7777 := by
  obtain ⟨h1, _, h3, h4, h5⟩ := gas_selection_amended 100
  refine ⟨?_, h3, h5 7777 (by omega) .sendVtho⟩
  rw [h1]
  rfl

end Vechain
